import Mathlib

/-!
Verification of the Mental Health Companion Chatbot (`src/app.py`).

The Python program is shallowly embedded: each class method becomes a Lean
function over explicit state.  External effects are parameters:
* the TextBlob polarity computation is an oracle `String → Option ℚ`
  (`none` models an exception inside `TextBlob(text)`),
* the Groq remote call is an `Except Unit String` outcome (`.error` models
  any exception raised by the network call, `.ok raw` the returned content),
* `random.choice` is indexed by an arbitrary draw `i : ℕ`.
Python floats are modelled by ℚ.
-/

namespace MHC

/-- Python's `in` operator on strings: `substrB n h` is true iff the
character list `n` occurs as a contiguous substring of `h` (the empty
needle always matches, as in Python). -/
def substrB (n : List Char) : List Char → Bool
  | [] => n.isEmpty
  | c :: t => n.isPrefixOf (c :: t) || substrB n t

/-- Python's `str.lower()` on the texts used here (ASCII case folding). -/
def pyLower (s : String) : List Char := s.data.map Char.toLower

/-- Python's `str.strip()`: remove leading and trailing whitespace. -/
def stripList (l : List Char) : List Char :=
  ((l.dropWhile Char.isWhitespace).reverse.dropWhile Char.isWhitespace).reverse

/-- Python truthiness of an optional string (`None` and `""` are falsy). -/
def truthyOpt : Option String → Bool
  | none => false
  | some s => decide (s ≠ "")

/-- `SentimentAnalyzer.analyze` result dictionary
`{'sentiment': ..., 'score': ..., 'confidence': ...}` (src/app.py:89,102-106). -/
structure SentimentResult where
  sentiment : String
  score : ℚ
  confidence : ℚ
  deriving Repr, DecidableEq

/-- Python's `abs` on a rational. -/
def pyAbs (q : ℚ) : ℚ := if q < 0 then -q else q

/-- Round half to even at the third decimal place, the behaviour of
Python's `round(x, 3)`. -/
def roundHalfEven (q : ℚ) : ℤ :=
  let f := Rat.floor q
  let r := q - f
  if r < 1/2 then f
  else if 1/2 < r then f + 1
  else if f % 2 = 0 then f else f + 1

/-- Python's `round(x, 3)`. -/
def round3 (q : ℚ) : ℚ := (roundHalfEven (q * 1000) : ℚ) / 1000

/-- `SentimentAnalyzer.analyze` (src/app.py:87-108).  `polarity` is the
TextBlob sentiment oracle; `polarity text = none` models the `except`
branch (TextBlob raising), which returns the same neutral result as the
blank-input guard. -/
def analyze (polarity : String → Option ℚ) (text : String) : SentimentResult :=
  if text.data = [] ∨ stripList text.data = [] then
    ⟨"neutral", 0, 0⟩
  else
    match polarity text with
    | none => ⟨"neutral", 0, 0⟩
    | some score =>
      let sentiment :=
        if score > 1/10 then "positive"
        else if score < -(1/10) then "negative"
        else "neutral"
      ⟨sentiment, round3 score, pyAbs score⟩

/-- A chat message dictionary `{'role': ..., 'content': ...}` as passed in
`conversation_history` (src/app.py:54-58). -/
structure Msg where
  role : String
  content : String
  deriving Repr, DecidableEq

/-- The fixed system instruction (src/app.py:44). -/
def system_prompt : String :=
  "You are a compassionate mental health companion. Provide empathetic, supportive responses (2-3 sentences). Be warm and understanding."

/-- The request message list built inside `APIHandler.generate_response`
(src/app.py:44-58): system instruction, then the mood-and-text user
message, then the last 4 history messages with non-empty content,
role mapped to user/assistant. -/
def build_messages (user_input : String) (sres : SentimentResult)
    (conversation_history : List Msg) : List Msg :=
  let user_message : Msg :=
    ⟨"user", "User mood: " ++ sres.sentiment ++ "\n\nUser says: " ++ user_input⟩
  let init : List Msg := [⟨"system", system_prompt⟩, user_message]
  (conversation_history.drop (conversation_history.length - 4)).foldl
    (fun acc msg =>
      if msg.content ≠ "" then
        acc ++ [⟨if msg.role = "user" then "user" else "assistant", msg.content⟩]
      else acc)
    init

/-- `APIHandler.generate_response` (src/app.py:39-70).  `enabled` is
`self.enabled`; `remote` is the outcome of the Groq
`chat.completions.create` call: `.error ()` models any raised exception
(the `except` branch returns `None`), `.ok raw` models a successful reply
whose content is `raw` before the final `.strip()`. -/
def generate_response (enabled : Bool) (remote : Except Unit String)
    (_user_input : String) (_sres : SentimentResult)
    (_conversation_history : List Msg) : Option String :=
  if !enabled then none
  else
    match remote with
    | .error _ => none
    | .ok raw => some ⟨stripList raw.data⟩

/-- `APIHandler` state: the stored key and the `enabled` flag
(src/app.py:25-34). -/
structure APIHandlerState where
  api_key : Option String
  enabled : Bool
  deriving Repr, DecidableEq

/-- `APIHandler.is_available` (src/app.py:36-37). -/
def is_available (st : APIHandlerState) : Bool := st.enabled

/-- `APIHandler.set_api_key` (src/app.py:72-81).  `groqAvailable` is the
module-level `GROQ_AVAILABLE` flag (false when `groq` fails to import);
`constructOk` is whether `Groq(api_key=api_key)` succeeds (false models
its `except` branch). -/
def set_api_key (groqAvailable constructOk : Bool)
    (_st : APIHandlerState) (api_key : Option String) : APIHandlerState :=
  if truthyOpt api_key && groqAvailable then
    if constructOk then ⟨api_key, true⟩ else ⟨api_key, false⟩
  else ⟨api_key, false⟩

/-- The fixed relaxation-tip catalog `RelaxationTips.tips`
(src/app.py:115-127). -/
def tips : List String :=
  [ "Take 5 deep breaths: Inhale 4 counts, hold 4, exhale 4. Repeat.",
    "Go for a short walk outside. Fresh air helps clear your mind.",
    "Listen to calming music or nature sounds.",
    "Write down your thoughts in a journal.",
    "Do a 5-minute meditation focusing on your breath.",
    "Drink a warm cup of tea and take a moment to relax.",
    "Stretch your body gently to release tension.",
    "Practice gratitude: Write 3 things you're grateful for.",
    "Take a break from screens for 10 minutes.",
    "Do something creative: draw, color, or write.",
    "Practice the 5-4-3-2-1 technique: Name 5 things you see, 4 you can touch, 3 you hear, 2 you smell, 1 you taste." ]

/-- `RelaxationTips.get_random_tip` (src/app.py:129-130): `random.choice`
picks `tips[i]` for a draw `i` below the catalog length. -/
def get_random_tip (i : ℕ) : String := tips.getD (i % tips.length) ""

/-- `MentalHealthChatbot.crisis_keywords` (src/app.py:138). -/
def crisis_keywords : List String :=
  ["suicide", "kill myself", "end my life", "hurt myself", "want to die"]

/-- `MentalHealthChatbot._get_crisis_response` (src/app.py:140-146). -/
def crisis_response : String :=
  "I'm concerned about your safety. Please contact:\n- Emergency: 911 (US) or 112 (EU)\n- Crisis Text Line: Text HOME to 741741\n- Suicide Prevention: 988 (US)\n\nThis chatbot cannot replace professional help. Please reach out to someone you trust or a mental health professional immediately."

/-- `MentalHealthChatbot._check_crisis` (src/app.py:148-149):
`any(word in text.lower() for word in self.crisis_keywords)`. -/
def check_crisis (text : String) : Bool :=
  crisis_keywords.any (fun word => substrB word.data (pyLower text))

/-- The anxiety clause appended by `_get_local_response` (src/app.py:160). -/
def anxietyClause : String :=
  " Anxiety can be overwhelming. Would you like to try some breathing exercises?"

/-- The depression clause appended by `_get_local_response` (src/app.py:162). -/
def depressionClause : String :=
  " Remember that these feelings can change. You're not alone."

/-- The stress clause appended by `_get_local_response` (src/app.py:164). -/
def stressClause : String :=
  " Stress can feel overwhelming. Breaking things into smaller steps can help."

/-- The mood-keyed base sentences, `responses` in `_get_local_response`
(src/app.py:152-157): dictionary lookup with the neutral entry as
default. -/
def baseResponse (sentiment : String) : String :=
  if sentiment = "positive" then
    "I'm glad you're feeling positive! Keep nurturing these good feelings."
  else if sentiment = "neutral" then
    "I hear you. How are you feeling about things right now?"
  else if sentiment = "negative" then
    "I'm sorry you're going through this. Your feelings are valid. Would you like to talk more about what's bothering you?"
  else
    "I hear you. How are you feeling about things right now?"

/-- `MentalHealthChatbot._get_local_response` (src/app.py:151-166). -/
def get_local_response (sentiment user_input : String) : String :=
  let base := baseResponse sentiment
  if ["anxious", "worried"].any (fun w => substrB w.data (pyLower user_input)) then
    base ++ anxietyClause
  else if ["sad", "depressed"].any (fun w => substrB w.data (pyLower user_input)) then
    base ++ depressionClause
  else if ["stressed", "overwhelmed"].any (fun w => substrB w.data (pyLower user_input)) then
    base ++ stressClause
  else
    base

/-- `MentalHealthChatbot.get_response` (src/app.py:168-178), paired with a
flag recording whether `api_handler.generate_response` was invoked on
this turn.  `enabled`/`remote` parameterise the handler as in
`generate_response`. -/
def get_response (enabled : Bool) (remote : Except Unit String)
    (user_input : String) (sres : SentimentResult)
    (conversation_history : List Msg) : String × Bool :=
  if check_crisis user_input then
    (crisis_response, false)
  else if enabled then
    match generate_response enabled remote user_input sres conversation_history with
    | some api_response =>
      if api_response ≠ "" then (api_response, true)
      else (get_local_response sres.sentiment user_input, true)
    | none => (get_local_response sres.sentiment user_input, true)
  else
    (get_local_response sres.sentiment user_input, false)

/-- A message appended to `st.session_state.messages`
(src/app.py:266-284): user messages carry no mood fields, assistant
messages carry `mood` and `sentiment_score`.  The wall-clock
`datetime.now().isoformat()` timestamp is abstracted as a ℕ supplied per
turn. -/
structure ChatMsg where
  role : String
  content : String
  timestamp : ℕ
  mood : Option String
  sentiment_score : Option ℚ
  deriving Repr, DecidableEq

/-- An entry of `st.session_state.mood_history` (src/app.py:286-290). -/
structure MoodSample where
  timestamp : ℕ
  sentiment : String
  sentiment_score : ℚ
  deriving Repr, DecidableEq

/-- The Streamlit session state touched by the chat handler: the message
log and the mood history (src/app.py:198-201). -/
structure SessionState where
  messages : List ChatMsg
  mood_history : List MoodSample
  deriving Repr, DecidableEq

/-- One execution of the chat input handler (src/app.py:266-290):
append the user message, analyze sentiment, build the history (all
messages but the one just appended), get the response, append the
tagged assistant message and a mood sample.  `enabled`/`remote`
parameterise the API handler for this turn and `ts` the timestamp. -/
def processTurn (polarity : String → Option ℚ) (enabled : Bool)
    (remote : Except Unit String) (ts : ℕ) (st : SessionState)
    (user_input : String) : SessionState :=
  let msgs1 := st.messages ++ [⟨"user", user_input, ts, none, none⟩]
  let sentiment := analyze polarity user_input
  let history := if msgs1.length > 1 then msgs1.dropLast else []
  let response :=
    (get_response enabled remote user_input sentiment
      (history.map fun m => ⟨m.role, m.content⟩)).1
  { messages := msgs1 ++
      [⟨"assistant", response, ts, some sentiment.sentiment, some sentiment.score⟩],
    mood_history := st.mood_history ++ [⟨ts, sentiment.sentiment, sentiment.score⟩] }

/-- The per-turn environment of one user turn: API-handler availability,
remote-call outcome, timestamp and the user's text. -/
structure Turn where
  enabled : Bool
  remote : Except Unit String
  ts : ℕ
  input : String

/-- Run a sequence of user turns through the chat handler. -/
def runTurns (polarity : String → Option ℚ) (st : SessionState)
    (turns : List Turn) : SessionState :=
  turns.foldl (fun s t => processTurn polarity t.enabled t.remote t.ts s t.input) st

/-- Spec-side description of the appended clause of `template_reply`
(spec § 4.3): scan the text case-insensitively for markers in the fixed
precedence order anxious/worried, then sad/depressed, then
stressed/overwhelmed; at most one clause applies. -/
def specClause (user_input : String) : String :=
  if ["anxious", "worried"].any (fun w => substrB w.data (pyLower user_input)) then
    anxietyClause
  else if ["sad", "depressed"].any (fun w => substrB w.data (pyLower user_input)) then
    depressionClause
  else if ["stressed", "overwhelmed"].any (fun w => substrB w.data (pyLower user_input)) then
    stressClause
  else
    ""

/-! ### Helper lemmas -/

theorem ratFloor_eq (q : ℚ) (z : ℤ) (h1 : (z : ℚ) ≤ q) (h2 : q < z + 1) :
    Rat.floor q = z := by
  have h : (Rat.floor q : ℤ) = ⌊q⌋ := by rw [Rat.floor_def, Rat.floor_def']
  rw [h]
  exact Int.floor_eq_iff.mpr ⟨h1, h2⟩

theorem roundHalfEven_eq_of_gt (q : ℚ) (z : ℤ) (h1 : (z : ℚ) ≤ q)
    (h2 : 1/2 < q - z) (h3 : q < z + 1) : roundHalfEven q = z + 1 := by
  unfold roundHalfEven
  rw [ratFloor_eq q z h1 h3, if_neg (by linarith), if_pos h2]

theorem pyAbs_eq_abs (q : ℚ) : pyAbs q = |q| := by
  unfold pyAbs
  split_ifs with h
  · exact (abs_of_neg h).symm
  · exact (abs_of_nonneg (le_of_not_lt h)).symm

theorem append_ne_empty (a b : String) (ha : a ≠ "") : a ++ b ≠ "" := by
  intro h
  apply ha
  cases a with
  | mk la =>
    cases b with
    | mk lb =>
      have hd : la ++ lb = [] := congrArg String.data h
      have : la = [] := (List.append_eq_nil.mp hd).1
      simp [this]

theorem baseResponse_ne_empty (mood : String) : baseResponse mood ≠ "" := by
  unfold baseResponse
  split_ifs <;> decide

theorem get_local_response_ne_empty (mood text : String) :
    get_local_response mood text ≠ "" := by
  unfold get_local_response
  split_ifs <;>
    first
      | exact append_ne_empty _ _ (baseResponse_ne_empty mood)
      | exact baseResponse_ne_empty mood

theorem analyze_sixth :
    analyze (fun _ => some ((1 : ℚ)/6)) "good" = ⟨"positive", 167/1000, 1/6⟩ := by
  unfold analyze
  rw [if_neg (by decide)]
  show (⟨_, round3 (1/6), pyAbs (1/6)⟩ : SentimentResult) = _
  have hs : round3 ((1 : ℚ)/6) = 167/1000 := by
    unfold round3
    rw [show ((1 : ℚ)/6 * 1000) = 500/3 by norm_num,
      roundHalfEven_eq_of_gt (500/3) 166 (by norm_num) (by norm_num) (by norm_num)]
    norm_num
  have hc : pyAbs ((1 : ℚ)/6) = 1/6 := by
    unfold pyAbs
    rw [if_neg (by norm_num)]
  rw [hs, hc, if_pos (by norm_num)]

/-! ### Claims -/

/-- C1: an input containing any crisis keyword as a case-insensitive
substring makes `get_response` return the fixed crisis message, for
every availability and remote outcome, without invoking the remote
responder. -/
theorem crisis_shortcircuits (enabled : Bool) (remote : Except Unit String)
    (user_input : String) (sres : SentimentResult) (hist : List Msg)
    (h : ∃ w ∈ crisis_keywords, substrB w.data (pyLower user_input) = true) :
    get_response enabled remote user_input sres hist = (crisis_response, false) := by
  have hc : check_crisis user_input = true := by
    unfold check_crisis
    rw [List.any_eq_true]
    obtain ⟨w, hw, hsub⟩ := h
    exact ⟨w, hw, hsub⟩
  unfold get_response
  rw [hc]
  rfl

/-- C1 witness: a concrete crisis input under an unavailable remote. -/
theorem crisis_shortcircuits_witness :
    get_response false (.error ()) "I want to DIE" ⟨"neutral", 0, 0⟩ []
      = (crisis_response, false) :=
  crisis_shortcircuits false (.error ()) "I want to DIE" ⟨"neutral", 0, 0⟩ []
    (by decide)

/-- C2: the remote responder returns `none` on any raised failure; when
it returns `none` on a non-crisis turn the pipeline answers with the
local template reply; and the template reply is a non-empty string for
every mood label and input text. -/
theorem remote_failure_falls_back :
    (∀ (enabled : Bool) (user_input : String) (sres : SentimentResult)
       (hist : List Msg) (e : Unit),
       generate_response enabled (.error e) user_input sres hist = none)
  ∧ (∀ (enabled : Bool) (remote : Except Unit String) (user_input : String)
       (sres : SentimentResult) (hist : List Msg),
       check_crisis user_input = false →
       generate_response enabled remote user_input sres hist = none →
       get_response enabled remote user_input sres hist
         = (get_local_response sres.sentiment user_input, enabled))
  ∧ (∀ mood text, get_local_response mood text ≠ "") := by
  refine ⟨?_, ?_, ?_⟩
  · intro enabled user_input sres hist e
    unfold generate_response
    cases enabled <;> rfl
  · intro enabled remote user_input sres hist hcrisis hnone
    unfold get_response
    rw [hcrisis]
    cases enabled with
    | false => rfl
    | true =>
      simp only [Bool.false_eq_true, if_false, if_true, hnone]
  · exact get_local_response_ne_empty

/-- C2 witness: a failing remote call on a concrete non-crisis turn. -/
theorem remote_failure_falls_back_witness :
    generate_response true (.error ()) "hello" ⟨"neutral", 0, 0⟩ [] = none
  ∧ get_response true (.error ()) "hello" ⟨"neutral", 0, 0⟩ []
      = (get_local_response "neutral" "hello", true)
  ∧ get_local_response "neutral" "hello" ≠ "" :=
  ⟨remote_failure_falls_back.1 true "hello" ⟨"neutral", 0, 0⟩ [] (),
   remote_failure_falls_back.2.1 true (.error ()) "hello" ⟨"neutral", 0, 0⟩ []
     (by decide)
     (remote_failure_falls_back.1 true "hello" ⟨"neutral", 0, 0⟩ [] ()),
   remote_failure_falls_back.2.2 "neutral" "hello"⟩

/-- C4: a blank input yields exactly the neutral zero result, and the
result does not depend on the sentiment oracle (no analysis is
performed). -/
theorem blank_input_neutral (polarity p2 : String → Option ℚ) (text : String)
    (h : text.data = [] ∨ stripList text.data = []) :
    analyze polarity text = ⟨"neutral", 0, 0⟩
  ∧ analyze polarity text = analyze p2 text := by
  constructor
  · unfold analyze
    rw [if_pos h]
  · unfold analyze
    rw [if_pos h, if_pos h]

/-- C4 witness: a concrete whitespace-only input under two different
oracles. -/
theorem blank_input_neutral_witness :
    analyze (fun _ => some 1) "   " = ⟨"neutral", 0, 0⟩
  ∧ analyze (fun _ => some 1) "   " = analyze (fun _ => none) "   " :=
  blank_input_neutral (fun _ => some 1) (fun _ => none) "   " (by decide)

/-- C3 counterexample: with polarity 1/6 (a value TextBlob produces for
ordinary text), the returned confidence (1/6, unrounded) differs from the
absolute value of the returned score field (167/1000, the rounded
polarity), so the claim as stated fails. -/
theorem confidence_not_abs_of_score_field :
    ¬((analyze (fun _ => some ((1 : ℚ)/6)) "good").confidence
        = |(analyze (fun _ => some ((1 : ℚ)/6)) "good").score|) := by
  rw [analyze_sixth]
  show ¬((1 : ℚ)/6 = |(167 : ℚ)/1000|)
  rw [abs_of_pos (by norm_num)]
  norm_num

/-- C3 (amended): on a successful analysis of a non-blank input, the
confidence field equals the absolute value of the raw polarity (not
rounded), while the score field is the polarity rounded to 3 decimal
places. -/
theorem confidence_is_abs_raw_polarity (polarity : String → Option ℚ)
    (text : String) (q : ℚ) (hp : polarity text = some q)
    (hb : ¬(text.data = [] ∨ stripList text.data = [])) :
    (analyze polarity text).confidence = |q|
  ∧ (analyze polarity text).score = round3 q := by
  unfold analyze
  rw [if_neg hb, hp]
  exact ⟨pyAbs_eq_abs q, rfl⟩

/-- C3 witness: the amended statement at polarity 1/6 on a concrete
input. -/
theorem confidence_is_abs_raw_polarity_witness :
    (analyze (fun _ => some ((1 : ℚ)/6)) "good").confidence = |(1 : ℚ)/6|
  ∧ (analyze (fun _ => some ((1 : ℚ)/6)) "good").score = round3 ((1 : ℚ)/6) :=
  confidence_is_abs_raw_polarity (fun _ => some ((1 : ℚ)/6)) "good" (1/6)
    rfl (by decide)

/-- C5: on a successful analysis of a non-blank input, the sentiment
label is positive exactly when the polarity exceeds 1/10, negative
exactly when it is below -1/10, and neutral otherwise (both boundaries
inclusive of neutral). -/
theorem classification_thresholds (polarity : String → Option ℚ)
    (text : String) (q : ℚ) (hp : polarity text = some q)
    (hb : ¬(text.data = [] ∨ stripList text.data = [])) :
    ((analyze polarity text).sentiment = "positive" ↔ 1/10 < q)
  ∧ ((analyze polarity text).sentiment = "negative" ↔ q < -(1/10))
  ∧ ((analyze polarity text).sentiment = "neutral" ↔ -(1/10) ≤ q ∧ q ≤ 1/10) := by
  have hsent : (analyze polarity text).sentiment
      = (if 1/10 < q then "positive"
         else if q < -(1/10) then "negative" else "neutral") := by
    unfold analyze
    rw [if_neg hb, hp]
  rw [hsent]
  split_ifs with h1 h2
  · exact ⟨iff_of_true rfl h1,
      iff_of_false (by decide) (by intro h; linarith),
      iff_of_false (by decide) (by rintro ⟨-, hle⟩; linarith)⟩
  · exact ⟨iff_of_false (by decide) h1,
      iff_of_true rfl h2,
      iff_of_false (by decide) (by rintro ⟨hge, -⟩; linarith)⟩
  · exact ⟨iff_of_false (by decide) h1,
      iff_of_false (by decide) h2,
      iff_of_true rfl ⟨le_of_not_lt h2, le_of_not_lt h1⟩⟩

/-- C5 witness: the boundary polarity 1/10 on a concrete input, which
classifies as neutral. -/
theorem classification_thresholds_witness :
    ((analyze (fun _ => some ((1 : ℚ)/10)) "x").sentiment = "positive"
        ↔ 1/10 < (1 : ℚ)/10)
  ∧ ((analyze (fun _ => some ((1 : ℚ)/10)) "x").sentiment = "negative"
        ↔ (1 : ℚ)/10 < -(1/10))
  ∧ ((analyze (fun _ => some ((1 : ℚ)/10)) "x").sentiment = "neutral"
        ↔ -(1/10) ≤ (1 : ℚ)/10 ∧ (1 : ℚ)/10 ≤ 1/10) :=
  classification_thresholds (fun _ => some ((1 : ℚ)/10)) "x" (1/10)
    rfl (by decide)

/-- C6: the local template reply is the mood-keyed base sentence followed
by the clause selected by the spec's precedence scan, and on the concrete
input `("negative", "I feel so anxious today")` it contains the negative
base and the anxiety clause but neither the depression nor the stress
clause. -/
theorem template_reply_structure :
    (∀ mood text, get_local_response mood text = baseResponse mood ++ specClause text)
  ∧ substrB (baseResponse "negative").data
      (get_local_response "negative" "I feel so anxious today").data = true
  ∧ substrB anxietyClause.data
      (get_local_response "negative" "I feel so anxious today").data = true
  ∧ substrB depressionClause.data
      (get_local_response "negative" "I feel so anxious today").data = false
  ∧ substrB stressClause.data
      (get_local_response "negative" "I feel so anxious today").data = false := by
  refine ⟨?_, by decide, by decide, by decide, by decide⟩
  intro mood text
  unfold get_local_response specClause
  split_ifs <;>
    first
      | rfl
      | exact (String.append_empty (baseResponse mood)).symm

theorem foldl_append_filter (f : Msg → Msg) (l : List Msg) (init : List Msg) :
    l.foldl (fun acc msg => if msg.content ≠ "" then acc ++ [f msg] else acc) init
      = init ++ (l.filter (fun m => m.content ≠ "")).map f := by
  induction l generalizing init with
  | nil => simp
  | cons a t ih =>
    simp only [List.foldl_cons, List.filter_cons]
    by_cases h : a.content = ""
    · rw [if_neg (fun hne => hne h), ih]
      simp [h]
    · rw [if_pos h, ih]
      simp [h, List.append_assoc]

/-- C7: the request message list is the fixed system instruction and the
mood-plus-text user message, followed by the last 4 prior history
messages that have non-empty content, each with its role mapped to
user/assistant; in particular at most 4 history messages are included
and each comes from the history with non-empty content. -/
theorem request_history_bounded (user_input : String) (sres : SentimentResult)
    (history : List Msg) :
    build_messages user_input sres history
      = [⟨"system", system_prompt⟩,
         ⟨"user", "User mood: " ++ sres.sentiment ++ "\n\nUser says: " ++ user_input⟩]
        ++ ((history.drop (history.length - 4)).filter
              (fun m => m.content ≠ "")).map
             (fun m => ⟨if m.role = "user" then "user" else "assistant", m.content⟩)
  ∧ (((history.drop (history.length - 4)).filter
        (fun m => m.content ≠ "")).map
       (fun m => (⟨if m.role = "user" then "user" else "assistant", m.content⟩ : Msg))).length ≤ 4
  ∧ ∀ m ∈ ((history.drop (history.length - 4)).filter
        (fun m => m.content ≠ "")).map
       (fun m => (⟨if m.role = "user" then "user" else "assistant", m.content⟩ : Msg)),
      ∃ h0, h0 ∈ history ∧ h0.content ≠ "" ∧ m.content = h0.content
        ∧ m.role = (if h0.role = "user" then "user" else "assistant") := by
  refine ⟨?_, ?_, ?_⟩
  · unfold build_messages
    simp only [foldl_append_filter]
  · rw [List.length_map]
    calc ((history.drop (history.length - 4)).filter
            (fun m => m.content ≠ "")).length
        ≤ (history.drop (history.length - 4)).length :=
          List.length_filter_le _ _
      _ ≤ 4 := by rw [List.length_drop]; omega
  · intro m hm
    rw [List.mem_map] at hm
    obtain ⟨h0, h0mem, rfl⟩ := hm
    rw [List.mem_filter] at h0mem
    obtain ⟨hdrop, hcontent⟩ := h0mem
    exact ⟨h0, List.drop_subset _ _ hdrop, of_decide_eq_true hcontent, rfl, rfl⟩

theorem runTurns_len (polarity : String → Option ℚ) (turns : List Turn) :
    ∀ st : SessionState,
    (runTurns polarity st turns).mood_history.length
      = st.mood_history.length + turns.length
  ∧ (runTurns polarity st turns).messages.length
      = st.messages.length + 2 * turns.length := by
  induction turns with
  | nil =>
    intro st
    simp [runTurns]
  | cons t ts ih =>
    intro st
    have h := ih (processTurn polarity t.enabled t.remote t.ts st t.input)
    simp only [runTurns, List.foldl_cons] at h ⊢
    constructor
    · rw [h.1]
      simp [processTurn]
      omega
    · rw [h.2]
      simp [processTurn]
      omega

/-- C8: each processed turn appends exactly the user message and an
assistant message whose mood and sentiment_score fields are the
sentiment and score computed from that turn's user text, plus one mood
sample with the same fields; and after any sequence of N turns from a
fresh session the mood history has exactly N samples, one per
user/assistant exchange pair. -/
theorem turn_tags_and_counts (polarity : String → Option ℚ) :
    (∀ (enabled : Bool) (remote : Except Unit String) (ts : ℕ)
       (st : SessionState) (input : String), ∃ response,
       (processTurn polarity enabled remote ts st input).messages
         = st.messages ++
             [⟨"user", input, ts, none, none⟩,
              ⟨"assistant", response, ts, some (analyze polarity input).sentiment,
               some (analyze polarity input).score⟩]
     ∧ (processTurn polarity enabled remote ts st input).mood_history
         = st.mood_history ++
             [⟨ts, (analyze polarity input).sentiment,
               (analyze polarity input).score⟩])
  ∧ (∀ turns : List Turn,
       (runTurns polarity ⟨[], []⟩ turns).mood_history.length = turns.length
     ∧ (runTurns polarity ⟨[], []⟩ turns).messages.length
         = 2 * (runTurns polarity ⟨[], []⟩ turns).mood_history.length) := by
  constructor
  · intro enabled remote ts st input
    refine ⟨(get_response enabled remote input (analyze polarity input)
        ((if (st.messages ++ [(⟨"user", input, ts, none, none⟩ : ChatMsg)]).length > 1
          then (st.messages ++ [(⟨"user", input, ts, none, none⟩ : ChatMsg)]).dropLast
          else []).map fun m => (⟨m.role, m.content⟩ : Msg))).1, ?_, rfl⟩
    exact List.append_assoc st.messages
      [⟨"user", input, ts, none, none⟩] [_]
  · intro turns
    have h := runTurns_len polarity turns ⟨[], []⟩
    simp only at h
    constructor
    · rw [h.1]
      simp
    · rw [h.1, h.2]
      simp

/-- C9: the relaxation-tip catalog has at least 10 entries and every
value `get_random_tip` can return, for any random draw, is an element of
the catalog. -/
theorem tip_in_catalog : 10 ≤ tips.length ∧ ∀ i : ℕ, get_random_tip i ∈ tips := by
  refine ⟨by decide, fun i => ?_⟩
  unfold get_random_tip
  have hlt : i % tips.length < tips.length := Nat.mod_lt _ (by decide)
  rw [List.getD_eq_getElem tips "" hlt]
  exact List.getElem_mem hlt

/-- C10: after `set_api_key`, the handler is available exactly when the
supplied key is truthy (neither absent nor empty), the Groq library
imported, and client construction succeeded; any falsy key or missing
library disables a previously enabled handler. -/
theorem key_gates_enablement (groqAvailable constructOk : Bool)
    (st : APIHandlerState) (api_key : Option String) :
    is_available (set_api_key groqAvailable constructOk st api_key)
      = (truthyOpt api_key && groqAvailable && constructOk) := by
  unfold is_available set_api_key
  cases htk : truthyOpt api_key <;> cases groqAvailable <;> cases constructOk <;>
    simp

end MHC
